import Mathlib

/-!
Shallow embedding of `src/python/s57_parser.py` (S-57 to GeoJSON translation).

Modelling conventions:
* Coordinates are rationals (`ℚ`); the source manipulates IEEE doubles but
  performs no arithmetic on them, it only moves them around, so an exact
  numeric carrier is faithful.
* A native OGR geometry handle is `GeomVal`: a type tag, a point list
  (GDAL's `GetPoint i` always yields an `(x, y, z)` triple), a list of
  sub-geometries (`GetGeometryRef`), and an optional spatial reference.
  The extra constructor `corrupt` stands for a handle whose inspection
  raises an exception inside the external library; every accessor returns
  `Except String` so such exceptions propagate to the `try/except` boundary
  in `convert_geometry_to_geojson` exactly as in the source.
* The external reprojection capability (`osr.CoordinateTransformation` plus
  `Geometry.Transform`) is out of scope per the spec; it is threaded through
  as an abstract function `applyT : GeomVal → GeomVal` applied to the clone.
* Python `for i in range(n)` loops that append to a list are embedded as
  `forRange`, an index-driven accumulation in the `Except` monad.
-/

/-- JSON values, the output representation (`json.dumps`-able Python data). -/
inductive Json : Type where
  | null : Json
  | bool (b : Bool) : Json
  | num (q : ℚ) : Json
  | str (s : String) : Json
  | arr (items : List Json) : Json
  | obj (entries : List (String × Json)) : Json

/-- An OGR spatial reference (`osr.SpatialReference`); only the authority
code is observed by the source (`GetAuthorityCode(None)`). -/
structure SpatialRef where
  authorityCode : Option String
deriving DecidableEq

/-- OGR geometry type codes compared against in the dispatch of
`convert_geometry_to_geojson`; every other wkb code is `unknown`. -/
inductive GeomType : Type where
  | point
  | point25D
  | lineString
  | lineString25D
  | polygon
  | polygon25D
  | multiPoint
  | multiPoint25D
  | multiLineString
  | multiLineString25D
  | multiPolygon
  | multiPolygon25D
  | unknown (code : Int)
deriving DecidableEq

/-- A native point: GDAL's `Geometry.GetPoint(i)` returns an `(x, y, z)`
triple even for 2D geometries (z is then 0). -/
abbrev Coord := ℚ × ℚ × ℚ

/-- A native OGR geometry handle value.  `corrupt` models a handle whose
inspection raises inside the external library. -/
inductive GeomVal : Type where
  | geom (gtype : GeomType) (points : List Coord) (subs : List GeomVal)
      (srs : Option SpatialRef)
  | corrupt

/-- `Geometry.GetSpatialReference()`. -/
def getSpatialReference : GeomVal → Except String (Option SpatialRef)
  | GeomVal.geom _ _ _ srs => Except.ok srs
  | GeomVal.corrupt => Except.error "corrupt geometry"

/-- `Geometry.GetGeometryType()`. -/
def getGeometryType : GeomVal → Except String GeomType
  | GeomVal.geom t _ _ _ => Except.ok t
  | GeomVal.corrupt => Except.error "corrupt geometry"

/-- `Geometry.GetX()` (of a point geometry). -/
def getX : GeomVal → Except String ℚ
  | GeomVal.geom _ pts _ _ => Except.ok (pts.headD (0, 0, 0)).1
  | GeomVal.corrupt => Except.error "corrupt geometry"

/-- `Geometry.GetY()`. -/
def getY : GeomVal → Except String ℚ
  | GeomVal.geom _ pts _ _ => Except.ok (pts.headD (0, 0, 0)).2.1
  | GeomVal.corrupt => Except.error "corrupt geometry"

/-- `Geometry.GetZ()`. -/
def getZ : GeomVal → Except String ℚ
  | GeomVal.geom _ pts _ _ => Except.ok (pts.headD (0, 0, 0)).2.2
  | GeomVal.corrupt => Except.error "corrupt geometry"

/-- `Geometry.GetPointCount()`. -/
def getPointCount : GeomVal → Except String Nat
  | GeomVal.geom _ pts _ _ => Except.ok pts.length
  | GeomVal.corrupt => Except.error "corrupt geometry"

/-- `Geometry.GetPoint(i)`: the `(x, y, z)` triple at index `i`. -/
def getPoint : GeomVal → Nat → Except String Coord
  | GeomVal.geom _ pts _ _, i =>
    match pts[i]? with
    | some p => Except.ok p
    | none => Except.error "point index out of range"
  | GeomVal.corrupt, _ => Except.error "corrupt geometry"

/-- `Geometry.GetGeometryCount()`. -/
def getGeometryCount : GeomVal → Except String Nat
  | GeomVal.geom _ _ subs _ => Except.ok subs.length
  | GeomVal.corrupt => Except.error "corrupt geometry"

/-- `Geometry.GetGeometryRef(i)`. -/
def getGeometryRef : GeomVal → Nat → Except String GeomVal
  | GeomVal.geom _ _ subs _, i =>
    match subs[i]? with
    | some g => Except.ok g
    | none => Except.error "geometry index out of range"
  | GeomVal.corrupt, _ => Except.error "corrupt geometry"

/-- `Geometry.Clone()`: on values, a copy is the value itself; the heap
model below accounts for the fresh-handle aspect. -/
def clone (geometry : GeomVal) : GeomVal := geometry

/-- `S57Parser.transform_to_wgs84`, value-level: no CRS or an EPSG:4326
authority code passes the geometry through; otherwise the clone is handed
to the external transform capability `applyT` (which stands for
`Transform(CoordinateTransformation(srs, wgs84))`). -/
def transform_to_wgs84 (applyT : GeomVal → GeomVal) (geometry : GeomVal) :
    Except String GeomVal := do
  let srs ← getSpatialReference geometry
  match srs with
  | none => Except.ok geometry
  | some s =>
    if s.authorityCode = some "4326" then Except.ok geometry
    else Except.ok (applyT (clone geometry))

/-- `S57Parser.transform_to_wgs84`, heap-level, to capture object identity
and in-place mutation: geometry handles are indices into a heap of
`GeomVal` cells.  Result = (returned handle, heap after the call, number of
`Transform` invocations performed).  `Clone` allocates a fresh cell holding
a copy and `Transform` mutates that fresh cell in place. -/
def transform_to_wgs84_heap (applyT : GeomVal → GeomVal) (heap : List GeomVal)
    (h : Nat) : Except String (Nat × List GeomVal × Nat) :=
  match heap[h]? with
  | none => Except.error "invalid geometry handle"
  | some geometry => do
    let srs ← getSpatialReference geometry
    match srs with
    | none => Except.ok (h, heap, 0)
    | some s =>
      if s.authorityCode = some "4326" then Except.ok (h, heap, 0)
      else Except.ok (heap.length, heap ++ [applyT geometry], 1)

/-- Embedding of `for i in range(start, start+count): acc.append(f(i))`
in the `Except` monad. -/
def forRange {β : Type} (f : Nat → Except String β) :
    Nat → Nat → Except String (List β)
  | _, 0 => Except.ok []
  | start, count + 1 => do
    let b ← f start
    let bs ← forRange f (start + 1) count
    Except.ok (b :: bs)

/-- `S57Parser._convert_point`: `[x, y]`, plus `z` when the type tag is
`wkbPoint25D`. -/
def _convert_point (geometry : GeomVal) : Except String Json := do
  let x ← getX geometry
  let y ← getY geometry
  let coords := [Json.num x, Json.num y]
  let t ← getGeometryType geometry
  let coords ←
    if t = GeomType.point25D then do
      let z ← getZ geometry
      Except.ok (coords ++ [Json.num z])
    else Except.ok coords
  Except.ok (Json.obj [("type", Json.str "Point"), ("coordinates", Json.arr coords)])

/-- `S57Parser._convert_linestring`: `list(point)` is the full `[x, y, z]`
triple for every vertex. -/
def _convert_linestring (geometry : GeomVal) : Except String Json := do
  let n ← getPointCount geometry
  let coords ← forRange (fun i => do
      let point ← getPoint geometry i
      Except.ok (Json.arr [Json.num point.1, Json.num point.2.1, Json.num point.2.2]))
    0 n
  Except.ok (Json.obj [("type", Json.str "LineString"), ("coordinates", Json.arr coords)])

/-- `S57Parser._convert_polygon`: per ring, `list(point)[:2]`, i.e. only
`[x, y]` per vertex. -/
def _convert_polygon (geometry : GeomVal) : Except String Json := do
  let n ← getGeometryCount geometry
  let coords ← forRange (fun i => do
      let ring ← getGeometryRef geometry i
      let m ← getPointCount ring
      let ring_coords ← forRange (fun j => do
          let point ← getPoint ring j
          Except.ok (Json.arr [Json.num point.1, Json.num point.2.1]))
        0 m
      Except.ok (Json.arr ring_coords))
    0 n
  Except.ok (Json.obj [("type", Json.str "Polygon"), ("coordinates", Json.arr coords)])

/-- `S57Parser._convert_multipoint`: `[GetX(), GetY()]` per member point. -/
def _convert_multipoint (geometry : GeomVal) : Except String Json := do
  let n ← getGeometryCount geometry
  let coords ← forRange (fun i => do
      let point ← getGeometryRef geometry i
      let x ← getX point
      let y ← getY point
      Except.ok (Json.arr [Json.num x, Json.num y]))
    0 n
  Except.ok (Json.obj [("type", Json.str "MultiPoint"), ("coordinates", Json.arr coords)])

/-- `S57Parser._convert_multilinestring`: full `[x, y, z]` per vertex of
each member line. -/
def _convert_multilinestring (geometry : GeomVal) : Except String Json := do
  let n ← getGeometryCount geometry
  let coords ← forRange (fun i => do
      let linestring ← getGeometryRef geometry i
      let m ← getPointCount linestring
      let line_coords ← forRange (fun j => do
          let point ← getPoint linestring j
          Except.ok (Json.arr [Json.num point.1, Json.num point.2.1, Json.num point.2.2]))
        0 m
      Except.ok (Json.arr line_coords))
    0 n
  Except.ok (Json.obj [("type", Json.str "MultiLineString"), ("coordinates", Json.arr coords)])

/-- `S57Parser._convert_multipolygon`: per member polygon, per ring,
`list(point)[:2]`. -/
def _convert_multipolygon (geometry : GeomVal) : Except String Json := do
  let n ← getGeometryCount geometry
  let coords ← forRange (fun i => do
      let polygon ← getGeometryRef geometry i
      let m ← getGeometryCount polygon
      let poly_coords ← forRange (fun j => do
          let ring ← getGeometryRef polygon j
          let c ← getPointCount ring
          let ring_coords ← forRange (fun k => do
              let point ← getPoint ring k
              Except.ok (Json.arr [Json.num point.1, Json.num point.2.1]))
            0 c
          Except.ok (Json.arr ring_coords))
        0 m
      Except.ok (Json.arr poly_coords))
    0 n
  Except.ok (Json.obj [("type", Json.str "MultiPolygon"), ("coordinates", Json.arr coords)])

/-- The body of `S57Parser.convert_geometry_to_geojson` inside its
`try:` block: transform to WGS84, then dispatch on the geometry type;
an unmatched type code logs a warning and yields `None`. -/
def convert_body (applyT : GeomVal → GeomVal) (geometry : GeomVal) :
    Except String (Option Json) := do
  let geometry ← transform_to_wgs84 applyT geometry
  let geom_type ← getGeometryType geometry
  match geom_type with
  | GeomType.point | GeomType.point25D => do
    let j ← _convert_point geometry
    Except.ok (some j)
  | GeomType.lineString | GeomType.lineString25D => do
    let j ← _convert_linestring geometry
    Except.ok (some j)
  | GeomType.polygon | GeomType.polygon25D => do
    let j ← _convert_polygon geometry
    Except.ok (some j)
  | GeomType.multiPoint | GeomType.multiPoint25D => do
    let j ← _convert_multipoint geometry
    Except.ok (some j)
  | GeomType.multiLineString | GeomType.multiLineString25D => do
    let j ← _convert_multilinestring geometry
    Except.ok (some j)
  | GeomType.multiPolygon | GeomType.multiPolygon25D => do
    let j ← _convert_multipolygon geometry
    Except.ok (some j)
  | GeomType.unknown _ => Except.ok none

/-- `S57Parser.convert_geometry_to_geojson`: the surrounding
`try/except` converts any exception into `None`. -/
def convert_geometry_to_geojson (applyT : GeomVal → GeomVal)
    (geometry : GeomVal) : Option Json :=
  match convert_body applyT geometry with
  | Except.ok r => r
  | Except.error _ => none

/-- A native feature field slot: declared name (`GetFieldDefnRef(i).GetName()`)
and value (`GetField(i)`, `none` = null / no data). -/
structure OField where
  name : String
  value : Option Json

/-- A native OGR feature: numeric id (`GetFID`), field slots, optional
geometry (`GetGeometry`). -/
structure OFeature where
  fid : Int
  fields : List OField
  geometry : Option GeomVal

/-- The four numbers of `SetSpatialFilterRect`. -/
structure Rect where
  minX : ℚ
  minY : ℚ
  maxX : ℚ
  maxY : ℚ
deriving DecidableEq

/-- A native OGR layer handle: its name, its stored features, its read
cursor (`ResetReading` / `GetNextFeature` state) and its current spatial
filter (`SetSpatialFilterRect` state). -/
structure Layer where
  name : String
  featureData : List OFeature
  cursor : Nat
  spatialFilter : Option Rect

/-- An opened dataset: the ordered list of its layers. -/
abbrev Dataset := List Layer

/-- One entry of the list built by `S57Parser.extract_layers`. -/
structure LayerInfo where
  name : String
  layer : Layer
  feature_count : Nat

/-- The per-feature dictionary built by `S57Parser.extract_features`
(`{'id': ..., 'geometry': ..., 'properties': ...}`). -/
structure FeatureDict where
  fid : Int
  geometry : Option Json
  properties : Option (List (String × Json))

/-- The `options` dictionary accepted by `S57Parser.parse`: a `none` field
means the key is absent. -/
structure POptions where
  feature_types : Option (List String)
  bbox : Option (List ℚ)

/-- Parsed command-line arguments (`argparse` result). -/
structure Args where
  input : String
  output : Option String
  feature_types : Option (List String)
  bbox : Option (List ℚ)
  verbose : Bool

/-- Python exceptions observed at the boundaries of `parse` / `main`. -/
inductive Exn : Type where
  | s57ParseError (msg : String)
  | unexpected (msg : String)
deriving DecidableEq

/-- Python `dict` assignment `d[k] = v` on an insertion-ordered mapping:
update in place when the key is present, append otherwise. -/
def dictInsert : List (String × Json) → String → Json → List (String × Json)
  | [], k, v => [(k, v)]
  | (k', v') :: rest, k, v =>
    if k' = k then (k, v) :: rest
    else (k', v') :: dictInsert rest k v

/-- Python `d[k]` / `d.get(k)` on an insertion-ordered mapping. -/
def lookupKey (k : String) : List (String × Json) → Option Json
  | [] => none
  | (k', v) :: rest => if k' = k then some v else lookupKey k rest

/-- `S57Parser.extract_feature_properties`: iterate field slots in order;
a null (`None`) value is omitted entirely. -/
def extract_feature_properties (feature : OFeature) : List (String × Json) :=
  feature.fields.foldl (fun properties fld =>
    match fld.value with
    | none => properties
    | some v => dictInsert properties fld.name v) []

/-- The per-feature body of the loop of `S57Parser.extract_features`:
the dict starts with `geometry: None`, then gets the conversion result
when the feature has a geometry (`if geometry:`). -/
def featureToDict (applyT : GeomVal → GeomVal) (feature : OFeature) :
    FeatureDict :=
  let base : FeatureDict :=
    { fid := feature.fid
      geometry := none
      properties := some (extract_feature_properties feature) }
  match feature.geometry with
  | some g => { base with geometry := convert_geometry_to_geojson applyT g }
  | none => base

/-- Whether `GetNextFeature` yields a feature under the layer's current
spatial filter; the rectangle-intersection test itself is the external
library's (`inRect` is the abstract delegated capability). -/
def passesFilter (inRect : OFeature → Rect → Bool) (filt : Option Rect)
    (feature : OFeature) : Bool :=
  match filt with
  | none => true
  | some r => inRect feature r

/-- The `while feature:` loop of `S57Parser.extract_features`, iterating
the (filter-restricted) feature stream to exhaustion. -/
def extractLoop (applyT : GeomVal → GeomVal) (inRect : OFeature → Rect → Bool)
    (filt : Option Rect) : List OFeature → List FeatureDict
  | [] => []
  | f :: rest =>
    if passesFilter inRect filt f then
      featureToDict applyT f :: extractLoop applyT inRect filt rest
    else extractLoop applyT inRect filt rest

/-- `S57Parser.extract_features`: `ResetReading` rewinds the cursor, the
loop advances it to exhaustion; the returned layer is the layer's state
after the call. -/
def extract_features (applyT : GeomVal → GeomVal)
    (inRect : OFeature → Rect → Bool) (layer : Layer) :
    List FeatureDict × Layer :=
  (extractLoop applyT inRect layer.spatialFilter layer.featureData,
   { layer with cursor := layer.featureData.length })

/-- `S57Parser.extract_layers`: name, layer handle and (advisory, never
used as a loop bound) feature count for each layer in dataset order. -/
def extract_layers (dataset : Dataset) : List LayerInfo :=
  dataset.map (fun l => ⟨l.name, l, l.featureData.length⟩)

/-- `Layer.SetSpatialFilterRect(minX, minY, maxX, maxY)`. -/
def setSpatialFilterRect (layer : Layer) (minX minY maxX maxY : ℚ) : Layer :=
  { layer with spatialFilter := some ⟨minX, minY, maxX, maxY⟩ }

/-- Python list indexing `l[i]`: raises `IndexError` past the end. -/
def listIdx (l : List ℚ) (i : Nat) : Except Exn ℚ :=
  match l[i]? with
  | some v => Except.ok v
  | none => Except.error (Exn.unexpected "list index out of range")

/-- The `if 'bbox' in options:` block of `S57Parser.parse`: the four
indexings `bbox[0] .. bbox[3]` are unguarded. -/
def applyBbox (options : POptions) (layer : Layer) : Except Exn Layer :=
  match options.bbox with
  | none => Except.ok layer
  | some bbox => do
    let b0 ← listIdx bbox 0
    let b1 ← listIdx bbox 1
    let b2 ← listIdx bbox 2
    let b3 ← listIdx bbox 3
    Except.ok (setSpatialFilterRect layer b0 b1 b2 b3)

/-- The layer-name filter `if 'feature_types' in options: if layer_name
not in options['feature_types']: continue`. -/
def layerIncluded (options : POptions) (layer_name : String) : Bool :=
  match options.feature_types with
  | none => true
  | some fts => layer_name ∈ fts

/-- `Json.null` for Python `None`, the value itself otherwise. -/
def optJson : Option Json → Json
  | none => Json.null
  | some j => j

/-- Lines 349–362 of `parse` plus `S57Feature.to_dict`: compose the id as
`"<layer>.<fid>"`, default a missing properties dict, inject
`_featureType`, and assemble the GeoJSON feature object. -/
def assembleFeature (layer_name : String) (fd : FeatureDict) : Json :=
  let feature_id := layer_name ++ "." ++ toString fd.fid
  let props :=
    match fd.properties with
    | none => []
    | some p => p
  let props := dictInsert props "_featureType" (Json.str layer_name)
  Json.obj [("type", Json.str "Feature"), ("id", Json.str feature_id),
    ("geometry", optJson fd.geometry), ("properties", Json.obj props)]

/-- The `for layer_info in layers:` loop of `S57Parser.parse`, threading
each layer's state; yields the collected feature list and the final layer
states in order. -/
def processLayers (applyT : GeomVal → GeomVal)
    (inRect : OFeature → Rect → Bool) (options : POptions) :
    List LayerInfo → Except Exn (List Json × List Layer)
  | [] => Except.ok ([], [])
  | info :: rest =>
    if layerIncluded options info.name then do
      let layer1 ← applyBbox options info.layer
      let (features, layer2) := extract_features applyT inRect layer1
      let assembled := features.map (assembleFeature info.name)
      let (more, rests) ← processLayers applyT inRect options rest
      Except.ok (assembled ++ more, layer2 :: rests)
    else do
      let (more, rests) ← processLayers applyT inRect options rest
      Except.ok (more, info.layer :: rests)

/-- `S57Parser.open`: `gdal.OpenEx` is the external open capability,
modelled as `openEx : Except String (Option Dataset)` (exception message,
or `None`, or the dataset).  Note the `except Exception` clause also
catches the `S57ParseError` raised on a `None` result inside the `try`
block, re-wrapping its message. -/
def s57open (openEx : Except String (Option Dataset)) (file_path : String) :
    Except Exn Dataset :=
  match openEx with
  | Except.error e =>
    Except.error (Exn.s57ParseError
      ("Error opening file " ++ file_path ++ ": " ++ e))
  | Except.ok none =>
    Except.error (Exn.s57ParseError
      ("Error opening file " ++ file_path ++ ": " ++
        ("Could not open file: " ++ file_path)))
  | Except.ok (some dataset) => Except.ok dataset

/-- `S57Parser.parse`: open, enumerate layers, process them, and wrap the
collected features as a FeatureCollection.  The final layer states are
returned alongside to make the state of the native handles observable. -/
def parse (applyT : GeomVal → GeomVal) (inRect : OFeature → Rect → Bool)
    (openEx : Except String (Option Dataset)) (file_path : String)
    (options : POptions) : Except Exn (Json × List Layer) := do
  let dataset ← s57open openEx file_path
  let layers := extract_layers dataset
  let (all_features, layers') ← processLayers applyT inRect options layers
  Except.ok (Json.obj [("type", Json.str "FeatureCollection"),
    ("features", Json.arr all_features)], layers')

/-- The options-building block of `main`; Python truthiness makes an empty
list fall through (`if args.feature_types:` / `if args.bbox:`). -/
def buildOptions (args : Args) : POptions :=
  { feature_types :=
      match args.feature_types with
      | some fts => if fts = [] then none else some fts
      | none => none
    bbox :=
      match args.bbox with
      | some b => if b = [] then none else some b
      | none => none }

/-- The source's `main` (named `mainEntry` here because Lean reserves
`main`): returns the process exit code and the JSON document printed on
stdout.  An `S57ParseError` yields code 1, any other exception code 2; in
verbose mode the unexpected-error object also carries a `traceback` key
(its text is environment-dependent and modelled as the empty string). -/
def mainEntry (applyT : GeomVal → GeomVal) (inRect : OFeature → Rect → Bool)
    (openEx : Except String (Option Dataset)) (args : Args) : Nat × Json :=
  match parse applyT inRect openEx args.input (buildOptions args) with
  | Except.ok (result, _) => (0, result)
  | Except.error (Exn.s57ParseError m) =>
    (1, Json.obj [("error", Json.str m), ("type", Json.str "S57ParseError")])
  | Except.error (Exn.unexpected m) =>
    (2, Json.obj ([("error", Json.str ("Unexpected error: " ++ m)),
      ("type", Json.str "UnexpectedError")] ++
      (if args.verbose then [("traceback", Json.str "")] else [])))

/-! ### Observers over the produced GeoJSON values -/

/-- The `"id"` entry of a GeoJSON feature object. -/
def idOf : Json → Option Json
  | Json.obj kvs => lookupKey "id" kvs
  | _ => none

/-- The `"geometry"` entry of a GeoJSON feature object. -/
def geometryOf : Json → Option Json
  | Json.obj kvs => lookupKey "geometry" kvs
  | _ => none

/-- The `"properties"` entry of a GeoJSON feature object. -/
def propertiesOf : Json → Option Json
  | Json.obj kvs => lookupKey "properties" kvs
  | _ => none

/-- The injected `_featureType` property of a GeoJSON feature object. -/
def featureTypeOf (j : Json) : Option Json :=
  match j with
  | Json.obj kvs =>
    match lookupKey "properties" kvs with
    | some (Json.obj props) => lookupKey "_featureType" props
    | _ => none
  | _ => none

/-- A GeoJSON vertex that is a list of exactly two numbers. -/
def isVertex2D : Json → Bool
  | Json.arr [Json.num _, Json.num _] => true
  | _ => false

/-- A GeoJSON ring all of whose vertices are 2D. -/
def ringAll2D : Json → Bool
  | Json.arr vertices => vertices.all isVertex2D
  | _ => false

/-- A polygon coordinate array all of whose rings are 2D. -/
def polyRingsAll2D : Json → Bool
  | Json.arr rings => rings.all ringAll2D
  | _ => false

/-- The `[x, y, z]` triple emitted for one linestring vertex. -/
def lineCoordJson (p : Coord) : Json :=
  Json.arr [Json.num p.1, Json.num p.2.1, Json.num p.2.2]

/-! ### Helper lemmas -/

@[simp] theorem except_bind_ok {ε α β : Type} (a : α) (f : α → Except ε β) :
    (Except.ok a : Except ε α) >>= f = f a := rfl

@[simp] theorem except_bind_error {ε α β : Type} (e : ε) (f : α → Except ε β) :
    (Except.error e : Except ε α) >>= f = Except.error e := rfl

theorem forRange_ok {α β : Type} (l : List α) (g : α → β) (f : Nat → Except String β)
    (hf : ∀ (i : Nat) (c : α), l[i]? = some c → f i = Except.ok (g c))
    (count : Nat) :
    ∀ start : Nat, start + count = l.length →
      forRange f start count = Except.ok ((l.drop start).map g) := by
  induction count with
  | zero =>
    intro start hlen
    have hs : start = l.length := by omega
    subst hs
    simp [forRange]
  | succ n ih =>
    intro start hlen
    have hlt : start < l.length := by omega
    have hcs : l[start]? = some l[start] := List.getElem?_eq_some_iff.2 ⟨hlt, rfl⟩
    have h1 := hf start l[start] hcs
    have h2 := ih (start + 1) (by omega)
    rw [forRange, h1, except_bind_ok, h2, except_bind_ok,
      List.drop_eq_getElem_cons hlt, List.map_cons]

theorem forRange_forall {β : Type} (f : Nat → Except String β) (P : β → Prop)
    (hf : ∀ (i : Nat) (b : β), f i = Except.ok b → P b) (count : Nat) :
    ∀ (start : Nat) (bs : List β),
      forRange f start count = Except.ok bs → ∀ b ∈ bs, P b := by
  induction count with
  | zero =>
    intro start bs h
    simp [forRange] at h
    subst h
    simp
  | succ n ih =>
    intro start bs h
    rw [forRange] at h
    cases hfs : f start with
    | error e => rw [hfs] at h; simp at h
    | ok b0 =>
      rw [hfs, except_bind_ok] at h
      cases hrec : forRange f (start + 1) n with
      | error e => rw [hrec] at h; simp at h
      | ok bs0 =>
        rw [hrec, except_bind_ok] at h
        cases h
        intro b hb
        rcases List.mem_cons.1 hb with hb0 | hbs
        · subst hb0; exact hf start b hfs
        · exact ih (start + 1) bs0 hrec b hbs

theorem lookupKey_dictInsert (kvs : List (String × Json)) (k : String) (v : Json) :
    lookupKey k (dictInsert kvs k v) = some v := by
  induction kvs with
  | nil => simp [dictInsert, lookupKey]
  | cons kv rest ih =>
    obtain ⟨k', v'⟩ := kv
    by_cases hk : k' = k
    · subst hk
      simp [dictInsert, lookupKey]
    · simp [dictInsert, lookupKey, hk, ih]

theorem extractLoop_nofilter (applyT : GeomVal → GeomVal)
    (inRect : OFeature → Rect → Bool) (l : List OFeature) :
    extractLoop applyT inRect none l = l.map (featureToDict applyT) := by
  induction l with
  | nil => rfl
  | cons f rest ih => simp [extractLoop, passesFilter, ih]

theorem geometryOf_assembleFeature (nm : String) (fd : FeatureDict) :
    geometryOf (assembleFeature nm fd) = some (optJson fd.geometry) := rfl

theorem idOf_assembleFeature (nm : String) (fd : FeatureDict) :
    idOf (assembleFeature nm fd) = some (Json.str (nm ++ "." ++ toString fd.fid)) := rfl

theorem featureTypeOf_assembleFeature (nm : String) (fd : FeatureDict) :
    featureTypeOf (assembleFeature nm fd) = some (Json.str nm) := by
  have h : featureTypeOf (assembleFeature nm fd) =
      lookupKey "_featureType"
        (dictInsert (match fd.properties with | none => [] | some p => p)
          "_featureType" (Json.str nm)) := rfl
  rw [h, lookupKey_dictInsert]

/-! ### Concrete stand-ins for the external capabilities, used by witnesses -/

/-- Identity stand-in for the external reprojection capability. -/
def idTransform : GeomVal → GeomVal := id

/-- Trivial stand-in for the delegated rectangle-intersection test. -/
def trueRect : OFeature → Rect → Bool := fun _ _ => true

/-- A 2.5D polygon carrying a Z ordinate on every ring vertex. -/
def ringZ : GeomVal :=
  GeomVal.geom GeomType.lineString [(1, 2, 3), (4, 5, 6)] [] none

/-- Sample 2.5D polygon built from `ringZ`. -/
def gPolyZ : GeomVal := GeomVal.geom GeomType.polygon25D [] [ringZ] none

/-- Sample 2.5D multipolygon built from `gPolyZ`-shaped members. -/
def gMultiPolyZ : GeomVal :=
  GeomVal.geom GeomType.multiPolygon25D [] [GeomVal.geom GeomType.polygon [] [ringZ] none] none

/-- Sample geometry with no spatial reference. -/
def gNoSrs : GeomVal := GeomVal.geom GeomType.point [(1, 2, 0)] [] none

/-- Sample geometry in a non-WGS84 CRS (EPSG:3857). -/
def gWebMercator : GeomVal :=
  GeomVal.geom GeomType.point [(10, 20, 0)] [] (some ⟨some "3857"⟩)

/-! ### Claims -/

/-- Claim C1: a geometry whose spatial reference is absent, or whose EPSG
authority code is the string "4326", is passed through `transform_to_wgs84`
reference-identically: the same handle comes back, the heap is unchanged,
no `Transform` call is made, and the value-level function returns the
geometry itself. -/
theorem c1_wgs84_passthrough (applyT : GeomVal → GeomVal) (heap : List GeomVal)
    (h : Nat) (g : GeomVal) (hget : heap[h]? = some g)
    (hsrs : getSpatialReference g = Except.ok none ∨
      ∃ s : SpatialRef, getSpatialReference g = Except.ok (some s) ∧
        s.authorityCode = some "4326") :
    transform_to_wgs84_heap applyT heap h = Except.ok (h, heap, 0) ∧
    transform_to_wgs84 applyT g = Except.ok g := by
  rcases hsrs with hnone | ⟨s, hs, ha⟩
  · constructor
    · simp [transform_to_wgs84_heap, hget, hnone]
    · simp [transform_to_wgs84, hnone]
  · constructor
    · simp [transform_to_wgs84_heap, hget, hs, ha]
    · simp [transform_to_wgs84, hs, ha]

theorem c1_wgs84_passthrough_witness :
    transform_to_wgs84_heap idTransform [gNoSrs] 0 =
      Except.ok (0, [gNoSrs], 0) ∧
    transform_to_wgs84 idTransform gNoSrs = Except.ok gNoSrs :=
  c1_wgs84_passthrough idTransform [gNoSrs] 0 gNoSrs rfl (Or.inl rfl)

/-- Claim C2: for a geometry in a non-WGS84 CRS, `transform_to_wgs84`
operates on a clone: the result is a freshly allocated handle, and the
caller's original cell (indeed every pre-existing cell) still holds the
original geometry value afterwards. -/
theorem c2_clone_before_transform (applyT : GeomVal → GeomVal)
    (heap : List GeomVal) (h : Nat) (g : GeomVal) (s : SpatialRef)
    (hget : heap[h]? = some g)
    (hs : getSpatialReference g = Except.ok (some s))
    (hne : s.authorityCode ≠ some "4326") :
    transform_to_wgs84_heap applyT heap h =
      Except.ok (heap.length, heap ++ [applyT g], 1) ∧
    (heap ++ [applyT g])[h]? = some g ∧
    ∀ i : Nat, i < heap.length → (heap ++ [applyT g])[i]? = heap[i]? := by
  have hlt : h < heap.length := by
    by_contra hge
    have hnone : heap[h]? = none := List.getElem?_eq_none_iff.2 (by omega)
    rw [hnone] at hget
    cases hget
  refine ⟨?_, ?_, ?_⟩
  · simp [transform_to_wgs84_heap, hget, hs, hne]
  · rw [List.getElem?_append_left hlt]
    exact hget
  · intro i hi
    exact List.getElem?_append_left hi

theorem c2_clone_before_transform_witness :
    transform_to_wgs84_heap idTransform [gWebMercator] 0 =
      Except.ok ([gWebMercator].length, [gWebMercator] ++ [idTransform gWebMercator], 1) ∧
    ([gWebMercator] ++ [idTransform gWebMercator])[0]? = some gWebMercator ∧
    ∀ i : Nat, i < [gWebMercator].length →
      ([gWebMercator] ++ [idTransform gWebMercator])[i]? = [gWebMercator][i]? :=
  c2_clone_before_transform idTransform [gWebMercator] 0 gWebMercator
    ⟨some "3857"⟩ rfl rfl (by decide)

/-- The vertex loop shared by `_convert_polygon` and `_convert_multipolygon`
(`list(point)[:2]`) only ever emits two-number vertices. -/
theorem vertexLoop_2d (ring : GeomVal) (m start : Nat) (vs : List Json)
    (h : forRange (fun j => do
          let point ← getPoint ring j
          Except.ok (Json.arr [Json.num point.1, Json.num point.2.1])) start m
        = Except.ok vs) :
    vs.all isVertex2D = true := by
  rw [List.all_eq_true]
  intro v hv
  refine forRange_forall _ (fun v => isVertex2D v = true) ?_ m start vs h v hv
  intro i b hb
  cases hp : getPoint ring i with
  | error e => rw [hp] at hb; simp at hb
  | ok p =>
    rw [hp, except_bind_ok] at hb
    cases hb
    rfl

/-- The ring loop of `_convert_polygon` (also the inner two loops of
`_convert_multipolygon`) only ever emits rings all of whose vertices are
two numbers. -/
theorem ringLoop_2d (g : GeomVal) (n start : Nat) (rs : List Json)
    (h : forRange (fun i => do
          let ring ← getGeometryRef g i
          let m ← getPointCount ring
          let ring_coords ← forRange (fun j => do
              let point ← getPoint ring j
              Except.ok (Json.arr [Json.num point.1, Json.num point.2.1])) 0 m
          Except.ok (Json.arr ring_coords)) start n = Except.ok rs) :
    rs.all ringAll2D = true := by
  rw [List.all_eq_true]
  intro r hr
  refine forRange_forall _ (fun r => ringAll2D r = true) ?_ n start rs h r hr
  intro i b hb
  cases hg : getGeometryRef g i with
  | error e => rw [hg] at hb; simp at hb
  | ok ring =>
    rw [hg, except_bind_ok] at hb
    cases hm : getPointCount ring with
    | error e => rw [hm] at hb; simp at hb
    | ok m =>
      rw [hm, except_bind_ok] at hb
      cases hin : forRange (fun j => do
          let point ← getPoint ring j
          Except.ok (Json.arr [Json.num point.1, Json.num point.2.1])) 0 m with
      | error e => rw [hin] at hb; simp at hb
      | ok vs =>
        rw [hin, except_bind_ok] at hb
        cases hb
        show ringAll2D (Json.arr vs) = true
        rw [show ringAll2D (Json.arr vs) = vs.all isVertex2D from rfl]
        exact vertexLoop_2d ring m 0 vs hin

/-- The polygon GeoJSON object built by `_convert_polygon`. -/
def polygonJson (rings : List Json) : Json :=
  Json.obj [("type", Json.str "Polygon"), ("coordinates", Json.arr rings)]

/-- The multipolygon GeoJSON object built by `_convert_multipolygon`. -/
def multiPolygonJson (polys : List Json) : Json :=
  Json.obj [("type", Json.str "MultiPolygon"), ("coordinates", Json.arr polys)]

/-- Claim C4: every successful `_convert_polygon` / `_convert_multipolygon`
translation yields ring coordinates in which every vertex is a list of
exactly two numbers (Z dropped), whatever the source geometry held. -/
theorem c4_polygon_vertices_2d :
    (∀ (g : GeomVal) (j : Json), _convert_polygon g = Except.ok j →
      ∃ rings : List Json, j = polygonJson rings ∧ rings.all ringAll2D = true) ∧
    (∀ (g : GeomVal) (j : Json), _convert_multipolygon g = Except.ok j →
      ∃ polys : List Json, j = multiPolygonJson polys ∧
        polys.all polyRingsAll2D = true) := by
  constructor
  · intro g j h
    cases g with
    | corrupt => simp [_convert_polygon, getGeometryCount] at h
    | geom t pts subs srs =>
      rw [_convert_polygon] at h
      rw [show getGeometryCount (GeomVal.geom t pts subs srs) =
        Except.ok subs.length from rfl, except_bind_ok] at h
      cases hfr : forRange (fun i => do
          let ring ← getGeometryRef (GeomVal.geom t pts subs srs) i
          let m ← getPointCount ring
          let ring_coords ← forRange (fun j => do
              let point ← getPoint ring j
              Except.ok (Json.arr [Json.num point.1, Json.num point.2.1])) 0 m
          Except.ok (Json.arr ring_coords)) 0 subs.length with
      | error e => rw [hfr] at h; simp at h
      | ok rings =>
        rw [hfr, except_bind_ok] at h
        cases h
        exact ⟨rings, rfl, ringLoop_2d _ _ _ _ hfr⟩
  · intro g j h
    cases g with
    | corrupt => simp [_convert_multipolygon, getGeometryCount] at h
    | geom t pts subs srs =>
      rw [_convert_multipolygon] at h
      rw [show getGeometryCount (GeomVal.geom t pts subs srs) =
        Except.ok subs.length from rfl, except_bind_ok] at h
      cases hfr : forRange (fun i => do
          let polygon ← getGeometryRef (GeomVal.geom t pts subs srs) i
          let m ← getGeometryCount polygon
          let poly_coords ← forRange (fun j => do
              let ring ← getGeometryRef polygon j
              let c ← getPointCount ring
              let ring_coords ← forRange (fun k => do
                  let point ← getPoint ring k
                  Except.ok (Json.arr [Json.num point.1, Json.num point.2.1])) 0 c
              Except.ok (Json.arr ring_coords)) 0 m
          Except.ok (Json.arr poly_coords)) 0 subs.length with
      | error e => rw [hfr] at h; simp at h
      | ok polys =>
        rw [hfr, except_bind_ok] at h
        cases h
        refine ⟨polys, rfl, ?_⟩
        rw [List.all_eq_true]
        intro p hp
        refine forRange_forall _ (fun p => polyRingsAll2D p = true) ?_
          subs.length 0 polys hfr p hp
        intro i b hb
        cases hg : getGeometryRef (GeomVal.geom t pts subs srs) i with
        | error e => rw [hg] at hb; simp at hb
        | ok polygon =>
          rw [hg, except_bind_ok] at hb
          cases hm : getGeometryCount polygon with
          | error e => rw [hm] at hb; simp at hb
          | ok m =>
            rw [hm, except_bind_ok] at hb
            cases hin : forRange (fun j => do
                let ring ← getGeometryRef polygon j
                let c ← getPointCount ring
                let ring_coords ← forRange (fun k => do
                    let point ← getPoint ring k
                    Except.ok (Json.arr [Json.num point.1, Json.num point.2.1])) 0 c
                Except.ok (Json.arr ring_coords)) 0 m with
            | error e => rw [hin] at hb; simp at hb
            | ok pcs =>
              rw [hin, except_bind_ok] at hb
              cases hb
              show polyRingsAll2D (Json.arr pcs) = true
              rw [show polyRingsAll2D (Json.arr pcs) = pcs.all ringAll2D from rfl]
              exact ringLoop_2d polygon m 0 pcs hin

theorem c4_polygon_vertices_2d_witness :
    (∃ rings : List Json,
      Json.obj [("type", Json.str "Polygon"), ("coordinates",
        Json.arr [Json.arr [Json.arr [Json.num 1, Json.num 2],
          Json.arr [Json.num 4, Json.num 5]]])] = polygonJson rings ∧
      rings.all ringAll2D = true) ∧
    (∃ polys : List Json,
      Json.obj [("type", Json.str "MultiPolygon"), ("coordinates",
        Json.arr [Json.arr [Json.arr [Json.arr [Json.num 1, Json.num 2],
          Json.arr [Json.num 4, Json.num 5]]]])] = multiPolygonJson polys ∧
      polys.all polyRingsAll2D = true) :=
  ⟨c4_polygon_vertices_2d.1 gPolyZ _ rfl, c4_polygon_vertices_2d.2 gMultiPolyZ _ rfl⟩

/-- Functional characterization of `_convert_linestring` on any geometry
value: the ordered, index-preserving list of full `[x, y, z]` triples. -/
theorem convert_linestring_geom (t : GeomType) (pts : List Coord)
    (subs : List GeomVal) (srs : Option SpatialRef) :
    _convert_linestring (GeomVal.geom t pts subs srs) =
      Except.ok (Json.obj [("type", Json.str "LineString"),
        ("coordinates", Json.arr (pts.map lineCoordJson))]) := by
  have hf : ∀ (i : Nat) (c : Coord), pts[i]? = some c →
      (do
        let point ← getPoint (GeomVal.geom t pts subs srs) i
        Except.ok (Json.arr [Json.num point.1, Json.num point.2.1,
          Json.num point.2.2])) = Except.ok (lineCoordJson c) := by
    intro i c hc
    rw [show getPoint (GeomVal.geom t pts subs srs) i =
      (match pts[i]? with
        | some p => Except.ok p
        | none => Except.error "point index out of range") from rfl, hc]
    rfl
  have hfr := forRange_ok pts lineCoordJson _ hf pts.length 0 (by omega)
  rw [List.drop_zero] at hfr
  rw [_convert_linestring,
    show getPointCount (GeomVal.geom t pts subs srs) =
      Except.ok pts.length from rfl,
    except_bind_ok, hfr, except_bind_ok]

/-- Claim C5: a translated LineString keeps, in vertex index order, the
full `[x, y, z]` triple of every vertex of the native point sequence --
the Z component is not stripped (asymmetric with polygons); via the
dispatcher, a CRS-less linestring converts to exactly that value. -/
theorem c5_linestring_keeps_z (applyT : GeomVal → GeomVal) (t : GeomType)
    (pts : List Coord) (subs : List GeomVal) (srs : Option SpatialRef) :
    _convert_linestring (GeomVal.geom t pts subs srs) =
      Except.ok (Json.obj [("type", Json.str "LineString"),
        ("coordinates", Json.arr (pts.map lineCoordJson))]) ∧
    convert_geometry_to_geojson applyT
        (GeomVal.geom GeomType.lineString pts subs none) =
      some (Json.obj [("type", Json.str "LineString"),
        ("coordinates", Json.arr (pts.map lineCoordJson))]) := by
  refine ⟨convert_linestring_geom t pts subs srs, ?_⟩
  simp only [convert_geometry_to_geojson, convert_body, transform_to_wgs84,
    getSpatialReference, getGeometryType, except_bind_ok,
    convert_linestring_geom]

theorem featureToDict_fid (applyT : GeomVal → GeomVal) (f : OFeature) :
    (featureToDict applyT f).fid = f.fid := by
  cases hg : f.geometry <;> simp [featureToDict, hg]

theorem featureToDict_properties (applyT : GeomVal → GeomVal) (f : OFeature) :
    (featureToDict applyT f).properties = some (extract_feature_properties f) := by
  cases hg : f.geometry <;> simp [featureToDict, hg]

theorem featureToDict_geometry_some (applyT : GeomVal → GeomVal)
    (f : OFeature) (g : GeomVal) (hg : f.geometry = some g) :
    (featureToDict applyT f).geometry = convert_geometry_to_geojson applyT g := by
  simp [featureToDict, hg]

/-- A zero-field native feature. -/
def feat0 : OFeature := ⟨1, [], none⟩

theorem processLayers_cons_included (applyT : GeomVal → GeomVal)
    (inRect : OFeature → Rect → Bool) (options : POptions) (info : LayerInfo)
    (rest : List LayerInfo) (fs : List Json) (ls' : List Layer)
    (hinc : layerIncluded options info.name = true)
    (h : processLayers applyT inRect options (info :: rest) =
      Except.ok (fs, ls')) :
    ∃ (layer1 : Layer) (more : List Json) (rests : List Layer),
      applyBbox options info.layer = Except.ok layer1 ∧
      processLayers applyT inRect options rest = Except.ok (more, rests) ∧
      fs = (extract_features applyT inRect layer1).1.map
        (assembleFeature info.name) ++ more ∧
      ls' = (extract_features applyT inRect layer1).2 :: rests := by
  rw [processLayers, if_pos hinc] at h
  cases hab : applyBbox options info.layer with
  | error e => rw [hab, except_bind_error] at h; cases h
  | ok layer1 =>
    rw [hab, except_bind_ok] at h
    rcases hef : extract_features applyT inRect layer1 with ⟨features, layer2⟩
    rw [hef] at h
    dsimp only at h
    cases hrec : processLayers applyT inRect options rest with
    | error e =>
      rw [hrec, except_bind_error] at h
      cases h
    | ok pr =>
      rcases pr with ⟨more, rests⟩
      rw [hrec, except_bind_ok] at h
      dsimp only at h
      injection h with h1
      injection h1 with h2 h3
      refine ⟨layer1, more, rests, rfl, rfl, ?_, ?_⟩
      · rw [hef]
        exact h2.symm
      · rw [hef]
        exact h3.symm

theorem processLayers_cons_skipped (applyT : GeomVal → GeomVal)
    (inRect : OFeature → Rect → Bool) (options : POptions) (info : LayerInfo)
    (rest : List LayerInfo) (fs : List Json) (ls' : List Layer)
    (hinc : ¬ layerIncluded options info.name = true)
    (h : processLayers applyT inRect options (info :: rest) =
      Except.ok (fs, ls')) :
    ∃ (more : List Json) (rests : List Layer),
      processLayers applyT inRect options rest = Except.ok (more, rests) ∧
      fs = more ∧ ls' = info.layer :: rests := by
  rw [processLayers, if_neg hinc] at h
  cases hrec : processLayers applyT inRect options rest with
  | error e => rw [hrec, except_bind_error] at h; cases h
  | ok pr =>
    rcases pr with ⟨more, rests⟩
    rw [hrec, except_bind_ok] at h
    dsimp only at h
    injection h with h1
    injection h1 with h2 h3
    exact ⟨more, rests, rfl, h2.symm, h3.symm⟩

theorem processLayers_skipped_preserved (applyT : GeomVal → GeomVal)
    (inRect : OFeature → Rect → Bool) (options : POptions) (fts : List String)
    (hft : options.feature_types = some fts) :
    ∀ (infos : List LayerInfo) (fs : List Json) (ls' : List Layer),
      processLayers applyT inRect options infos = Except.ok (fs, ls') →
      ∀ (i : Nat) (info : LayerInfo), infos[i]? = some info →
        info.name ∉ fts → ls'[i]? = some info.layer := by
  intro infos
  induction infos with
  | nil =>
    intro fs ls' h i info hi
    simp at hi
  | cons info0 rest ih =>
    intro fs ls' h i info hi hskip
    by_cases hinc : layerIncluded options info0.name = true
    · obtain ⟨layer1, more, rests, hab, hrec, hfs, hls⟩ :=
        processLayers_cons_included applyT inRect options info0 rest fs ls' hinc h
      subst hls
      cases i with
      | zero =>
        simp only [List.getElem?_cons_zero, Option.some.injEq] at hi
        subst hi
        exfalso
        rw [layerIncluded, hft] at hinc
        exact hskip (of_decide_eq_true hinc)
      | succ n =>
        simp only [List.getElem?_cons_succ] at hi ⊢
        exact ih more rests hrec n info hi hskip
    · obtain ⟨more, rests, hrec, hfs, hls⟩ :=
        processLayers_cons_skipped applyT inRect options info0 rest fs ls' hinc h
      subst hls
      cases i with
      | zero =>
        simp only [List.getElem?_cons_zero, Option.some.injEq] at hi
        subst hi
        simp
      | succ n =>
        simp only [List.getElem?_cons_succ] at hi ⊢
        exact ih more rests hrec n info hi hskip

theorem processLayers_featureTypes (applyT : GeomVal → GeomVal)
    (inRect : OFeature → Rect → Bool) (options : POptions) :
    ∀ (infos : List LayerInfo) (fs : List Json) (ls' : List Layer),
      processLayers applyT inRect options infos = Except.ok (fs, ls') →
      ∀ j ∈ fs, ∃ info : LayerInfo, info ∈ infos ∧
        layerIncluded options info.name = true ∧
        featureTypeOf j = some (Json.str info.name) := by
  intro infos
  induction infos with
  | nil =>
    intro fs ls' h j hj
    rw [processLayers] at h
    injection h with h1
    injection h1 with h2 h3
    rw [← h2] at hj
    simp at hj
  | cons info0 rest ih =>
    intro fs ls' h j hj
    by_cases hinc : layerIncluded options info0.name = true
    · obtain ⟨layer1, more, rests, hab, hrec, hfs, hls⟩ :=
        processLayers_cons_included applyT inRect options info0 rest fs ls' hinc h
      subst hfs
      rcases List.mem_append.1 hj with hjf | hjm
      · obtain ⟨fd, hfd, hje⟩ := List.mem_map.1 hjf
        refine ⟨info0, List.mem_cons_self info0 rest, hinc, ?_⟩
        rw [← hje, featureTypeOf_assembleFeature]
      · obtain ⟨info, hmem, hincl, hty⟩ := ih more rests hrec j hjm
        exact ⟨info, List.mem_cons_of_mem info0 hmem, hincl, hty⟩
    · obtain ⟨more, rests, hrec, hfs, hls⟩ :=
        processLayers_cons_skipped applyT inRect options info0 rest fs ls' hinc h
      obtain ⟨info, hmem, hincl, hty⟩ := ih more rests hrec j (hfs ▸ hj)
      exact ⟨info, List.mem_cons_of_mem info0 hmem, hincl, hty⟩

/-- Claim C6: with a `feature_types` filter, a layer whose name is not a
member is skipped before any feature work — its handle state is returned
untouched — and no output feature carries its name as `_featureType`;
with `feature_types` omitted every layer is included. -/
theorem c6_layer_filter (applyT : GeomVal → GeomVal)
    (inRect : OFeature → Rect → Bool) (options : POptions)
    (infos : List LayerInfo) (fs : List Json) (ls' : List Layer)
    (hp : processLayers applyT inRect options infos = Except.ok (fs, ls')) :
    (∀ fts : List String, options.feature_types = some fts →
      (∀ (i : Nat) (info : LayerInfo), infos[i]? = some info →
        info.name ∉ fts → ls'[i]? = some info.layer) ∧
      ∀ nm : String, nm ∉ fts → ∀ j ∈ fs,
        featureTypeOf j ≠ some (Json.str nm)) ∧
    (options.feature_types = none →
      ∀ nm : String, layerIncluded options nm = true) := by
  constructor
  · intro fts hft
    constructor
    · exact fun i info hi =>
        processLayers_skipped_preserved applyT inRect options fts hft
          infos fs ls' hp i info hi
    · intro nm hnm j hj hty
      obtain ⟨info, hmem, hincl, hty'⟩ :=
        processLayers_featureTypes applyT inRect options infos fs ls' hp j hj
      rw [hty'] at hty
      injection hty with h1
      injection h1 with h2
      rw [layerIncluded, hft] at hincl
      rw [h2] at hincl
      exact hnm (of_decide_eq_true hincl)
  · intro hnone nm
    rw [layerIncluded, hnone]

/-- A one-feature DEPARE layer. -/
def layer6 : Layer := ⟨"DEPARE", [feat0], 0, none⟩

/-- Options whose layer filter excludes "DEPARE". -/
def opts6 : POptions := ⟨some ["LIGHTS"], none⟩

theorem c6_layer_filter_witness :
    (∀ fts : List String, opts6.feature_types = some fts →
      (∀ (i : Nat) (info : LayerInfo),
        (extract_layers [layer6])[i]? = some info →
        info.name ∉ fts → ([layer6] : List Layer)[i]? = some info.layer) ∧
      ∀ nm : String, nm ∉ fts → ∀ j ∈ ([] : List Json),
        featureTypeOf j ≠ some (Json.str nm)) ∧
    (opts6.feature_types = none →
      ∀ nm : String, layerIncluded opts6 nm = true) :=
  c6_layer_filter idTransform trueRect opts6 (extract_layers [layer6])
    [] [layer6] rfl

theorem applyBbox_fields (options : POptions) (layer layer1 : Layer)
    (h : applyBbox options layer = Except.ok layer1) :
    layer1.name = layer.name ∧ layer1.featureData = layer.featureData := by
  rw [applyBbox] at h
  cases hb : options.bbox with
  | none =>
    rw [hb] at h
    dsimp only at h
    injection h with h1
    rw [← h1]
    exact ⟨rfl, rfl⟩
  | some bbox =>
    rw [hb] at h
    dsimp only at h
    cases h0 : listIdx bbox 0 with
    | error e => rw [h0, except_bind_error] at h; cases h
    | ok b0 =>
      rw [h0, except_bind_ok] at h
      cases h1 : listIdx bbox 1 with
      | error e => rw [h1, except_bind_error] at h; cases h
      | ok b1 =>
        rw [h1, except_bind_ok] at h
        cases h2 : listIdx bbox 2 with
        | error e => rw [h2, except_bind_error] at h; cases h
        | ok b2 =>
          rw [h2, except_bind_ok] at h
          cases h3 : listIdx bbox 3 with
          | error e => rw [h3, except_bind_error] at h; cases h
          | ok b3 =>
            rw [h3, except_bind_ok] at h
            injection h with h4
            rw [← h4]
            exact ⟨rfl, rfl⟩

theorem processLayers_preserves (applyT : GeomVal → GeomVal)
    (inRect : OFeature → Rect → Bool) (options : POptions) :
    ∀ (infos : List LayerInfo) (fs : List Json) (ls' : List Layer),
      processLayers applyT inRect options infos = Except.ok (fs, ls') →
      ls'.length = infos.length ∧
      ∀ i : Nat,
        (ls'[i]?).map Layer.name =
          (infos[i]?).map (fun info => info.layer.name) ∧
        (ls'[i]?).map Layer.featureData =
          (infos[i]?).map (fun info => info.layer.featureData) := by
  intro infos
  induction infos with
  | nil =>
    intro fs ls' h
    rw [processLayers] at h
    injection h with h1
    injection h1 with h2 h3
    rw [← h3]
    exact ⟨rfl, fun i => ⟨rfl, rfl⟩⟩
  | cons info0 rest ih =>
    intro fs ls' h
    by_cases hinc : layerIncluded options info0.name = true
    · obtain ⟨layer1, more, rests, hab, hrec, hfs, hls⟩ :=
        processLayers_cons_included applyT inRect options info0 rest fs ls' hinc h
      obtain ⟨hn, hd⟩ := applyBbox_fields options info0.layer layer1 hab
      obtain ⟨ihlen, ihidx⟩ := ih more rests hrec
      subst hls
      constructor
      · simp [ihlen]
      · intro i
        cases i with
        | zero =>
          constructor
          · simp only [List.getElem?_cons_zero]
            show some ((extract_features applyT inRect layer1).2.name) =
              some info0.layer.name
            exact congrArg some hn
          · simp only [List.getElem?_cons_zero]
            show some ((extract_features applyT inRect layer1).2.featureData) =
              some info0.layer.featureData
            exact congrArg some hd
        | succ n =>
          simp only [List.getElem?_cons_succ]
          exact ihidx n
    · obtain ⟨more, rests, hrec, hfs, hls⟩ :=
        processLayers_cons_skipped applyT inRect options info0 rest fs ls' hinc h
      obtain ⟨ihlen, ihidx⟩ := ih more rests hrec
      subst hls
      constructor
      · simp [ihlen]
      · intro i
        cases i with
        | zero =>
          constructor
          · simp only [List.getElem?_cons_zero]
            rfl
          · simp only [List.getElem?_cons_zero]
            rfl
        | succ n =>
          simp only [List.getElem?_cons_succ]
          exact ihidx n

/-- Claim C9 exactly as the spec states it: no operation of a successful
parse changes any state of the dataset handle or its layers. -/
def c9ClaimStatement : Prop :=
  ∀ (applyT : GeomVal → GeomVal) (inRect : OFeature → Rect → Bool)
    (ds : Dataset) (fp : String) (options : POptions) (out : Json)
    (ds' : List Layer),
    parse applyT inRect (Except.ok (some ds)) fp options =
      Except.ok (out, ds') → ds' = ds

/-- Counterexample to claim C9: parsing a one-layer dataset advances the
layer's read cursor (`ResetReading` / `GetNextFeature` exhaustion), so the
layer state after `parse` differs from the state before. -/
theorem c9_counterexample : ¬ c9ClaimStatement := by
  intro hc
  have h := hc idTransform trueRect [layer6] "chart.000" ⟨none, none⟩
    (Json.obj [("type", Json.str "FeatureCollection"), ("features",
      Json.arr [assembleFeature "DEPARE" (featureToDict idTransform feat0)])])
    [⟨"DEPARE", [feat0], 1, none⟩] rfl
  injection h with hhead htail
  have h2 := congrArg Layer.cursor hhead
  exact absurd h2 (by decide)

/-- Claim C9 amended: a successful parse never changes the layer list
structure, the layer names, or the stored feature data — the dataset is
only queried for those — but each included layer's read cursor (and, with
a bbox, its spatial filter) is layer state the parse does change. -/
theorem c9_amended_dataset_queries (applyT : GeomVal → GeomVal)
    (inRect : OFeature → Rect → Bool) (ds : Dataset) (fp : String)
    (options : POptions) (out : Json) (ds' : List Layer)
    (hp : parse applyT inRect (Except.ok (some ds)) fp options =
      Except.ok (out, ds')) :
    ds'.length = ds.length ∧
    ∀ i : Nat,
      (ds'[i]?).map Layer.name = (ds[i]?).map Layer.name ∧
      (ds'[i]?).map Layer.featureData = (ds[i]?).map Layer.featureData := by
  have h1 : s57open (Except.ok (some ds)) fp = Except.ok ds := rfl
  rw [parse, h1, except_bind_ok] at hp
  dsimp only at hp
  cases hpl : processLayers applyT inRect options (extract_layers ds) with
  | error e => rw [hpl, except_bind_error] at hp; cases hp
  | ok pr =>
    rcases pr with ⟨fs, ls0⟩
    rw [hpl, except_bind_ok] at hp
    dsimp only at hp
    injection hp with hp1
    injection hp1 with hp2 hp3
    obtain ⟨hlen, hidx⟩ :=
      processLayers_preserves applyT inRect options (extract_layers ds) fs ls0 hpl
    subst hp3
    constructor
    · rw [hlen, extract_layers, List.length_map]
    · intro i
      obtain ⟨hn, hd⟩ := hidx i
      constructor
      · rw [hn, extract_layers, List.getElem?_map, Option.map_map]
        rfl
      · rw [hd, extract_layers, List.getElem?_map, Option.map_map]
        rfl

theorem c9_amended_dataset_queries_witness :
    ([⟨"DEPARE", [feat0], 1, none⟩] : List Layer).length =
      ([layer6] : List Layer).length ∧
    ∀ i : Nat,
      (([⟨"DEPARE", [feat0], 1, none⟩] : List Layer)[i]?).map Layer.name =
        (([layer6] : List Layer)[i]?).map Layer.name ∧
      (([⟨"DEPARE", [feat0], 1, none⟩] : List Layer)[i]?).map Layer.featureData =
        (([layer6] : List Layer)[i]?).map Layer.featureData :=
  c9_amended_dataset_queries idTransform trueRect [layer6] "chart.000"
    ⟨none, none⟩
    (Json.obj [("type", Json.str "FeatureCollection"), ("features",
      Json.arr [assembleFeature "DEPARE" (featureToDict idTransform feat0)])])
    [⟨"DEPARE", [feat0], 1, none⟩] rfl

theorem applyBbox_short (options : POptions) (b : List ℚ) (layer : Layer)
    (hb : options.bbox = some b) (hlen : b.length < 4) :
    applyBbox options layer =
      Except.error (Exn.unexpected "list index out of range") := by
  rw [applyBbox, hb]
  rcases b with _ | ⟨x0, _ | ⟨x1, _ | ⟨x2, _ | ⟨x3, rest⟩⟩⟩⟩
  · rfl
  · rfl
  · rfl
  · rfl
  · exfalso
    simp at hlen
    omega

theorem processLayers_bbox_fail (applyT : GeomVal → GeomVal)
    (inRect : OFeature → Rect → Bool) (options : POptions) (b : List ℚ)
    (hb : options.bbox = some b) (hlen : b.length < 4) :
    ∀ infos : List LayerInfo,
      (∃ info ∈ infos, layerIncluded options info.name = true) →
      processLayers applyT inRect options infos =
        Except.error (Exn.unexpected "list index out of range") := by
  intro infos
  induction infos with
  | nil =>
    rintro ⟨info, hmem, _⟩
    simp at hmem
  | cons info0 rest ih =>
    rintro ⟨info, hmem, hincl⟩
    by_cases hinc0 : layerIncluded options info0.name = true
    · rw [processLayers, if_pos hinc0,
        applyBbox_short options b info0.layer hb hlen, except_bind_error]
    · rw [processLayers, if_neg hinc0]
      have hrest : ∃ info ∈ rest, layerIncluded options info.name = true := by
        rcases List.mem_cons.1 hmem with he | hr
        · exact absurd (he ▸ hincl) hinc0
        · exact ⟨info, hr, hincl⟩
      rw [ih hrest, except_bind_error]

/-- Claim C10: when options carry a `bbox` with fewer than four elements
and some layer passes the `feature_types` filter, the unguarded
`bbox[0] .. bbox[3]` indexing raises, the exception propagates out of
`parse` uncaught, and through the entry point it surfaces as an
`UnexpectedError` with exit code 2. -/
theorem c10_short_bbox (applyT : GeomVal → GeomVal)
    (inRect : OFeature → Rect → Bool) (ds : Dataset) (fp : String)
    (options : POptions) (b : List ℚ)
    (hb : options.bbox = some b) (hlen : b.length < 4)
    (hlayer : ∃ L ∈ ds, layerIncluded options L.name = true) :
    parse applyT inRect (Except.ok (some ds)) fp options =
      Except.error (Exn.unexpected "list index out of range") ∧
    ∀ args : Args, buildOptions args = options →
      mainEntry applyT inRect (Except.ok (some ds)) args =
        (2, Json.obj ([("error",
          Json.str "Unexpected error: list index out of range"),
          ("type", Json.str "UnexpectedError")] ++
          (if args.verbose then [("traceback", Json.str "")] else []))) := by
  have hinfos : ∃ info ∈ extract_layers ds,
      layerIncluded options info.name = true := by
    rcases hlayer with ⟨L, hmem, hincl⟩
    exact ⟨⟨L.name, L, L.featureData.length⟩, List.mem_map_of_mem _ hmem, hincl⟩
  have hkey : ∀ fp' : String,
      parse applyT inRect (Except.ok (some ds)) fp' options =
        Except.error (Exn.unexpected "list index out of range") := by
    intro fp'
    have h1 : s57open (Except.ok (some ds)) fp' = Except.ok ds := rfl
    rw [parse, h1, except_bind_ok]
    dsimp only
    rw [processLayers_bbox_fail applyT inRect options b hb hlen
      (extract_layers ds) hinfos, except_bind_error]
  refine ⟨hkey fp, ?_⟩
  intro args hargs
  rw [mainEntry, hargs, hkey args.input]
  rfl

theorem c10_short_bbox_witness :
    parse idTransform trueRect (Except.ok (some [layer6])) "chart.000"
      ⟨none, some [0]⟩ =
      Except.error (Exn.unexpected "list index out of range") ∧
    ∀ args : Args, buildOptions args = ⟨none, some [0]⟩ →
      mainEntry idTransform trueRect (Except.ok (some [layer6])) args =
        (2, Json.obj ([("error",
          Json.str "Unexpected error: list index out of range"),
          ("type", Json.str "UnexpectedError")] ++
          (if args.verbose then [("traceback", Json.str "")] else []))) :=
  c10_short_bbox idTransform trueRect [layer6] "chart.000" ⟨none, some [0]⟩
    [0] rfl (by decide) ⟨layer6, List.mem_cons_self layer6 [], rfl⟩

/-- Claim C7: the feature assembled from layer `L` and a native feature
with id `n` has id `"L.n"` and a properties mapping containing
`_featureType == L`; with zero fields the extracted mapping is empty and
the final mapping is exactly the injected `_featureType` entry. -/
theorem c7_feature_identity (applyT : GeomVal → GeomVal) (L : String)
    (f : OFeature) :
    idOf (assembleFeature L (featureToDict applyT f)) =
      some (Json.str (L ++ "." ++ toString f.fid)) ∧
    featureTypeOf (assembleFeature L (featureToDict applyT f)) =
      some (Json.str L) ∧
    (f.fields = [] → extract_feature_properties f = [] ∧
      propertiesOf (assembleFeature L (featureToDict applyT f)) =
        some (Json.obj [("_featureType", Json.str L)])) := by
  refine ⟨?_, featureTypeOf_assembleFeature L _, ?_⟩
  · rw [idOf_assembleFeature, featureToDict_fid]
  · intro hfields
    have hprops : extract_feature_properties f = [] := by
      rw [extract_feature_properties, hfields]
      rfl
    refine ⟨hprops, ?_⟩
    have h1 : propertiesOf (assembleFeature L (featureToDict applyT f)) =
        some (Json.obj (dictInsert
          (match (featureToDict applyT f).properties with
            | none => [] | some p => p) "_featureType" (Json.str L))) := rfl
    rw [h1, featureToDict_properties, hprops]
    rfl

theorem c7_feature_identity_witness :
    idOf (assembleFeature "DEPARE" (featureToDict idTransform feat0)) =
      some (Json.str "DEPARE.1") ∧
    extract_feature_properties feat0 = [] ∧
    propertiesOf (assembleFeature "DEPARE" (featureToDict idTransform feat0)) =
      some (Json.obj [("_featureType", Json.str "DEPARE")]) :=
  ⟨Eq.trans (c7_feature_identity idTransform "DEPARE" feat0).1 rfl,
   (c7_feature_identity idTransform "DEPARE" feat0).2.2 rfl⟩

/-- Claim C8: when the dataset cannot be opened (`gdal.OpenEx` returns
`None` or raises), `parse` aborts with a domain-specific `S57ParseError`
before any layer work — no feature output exists — and `main` exits with
code 1 after emitting `{"error": m, "type": "S57ParseError"}`. -/
theorem c8_open_failure (applyT : GeomVal → GeomVal)
    (inRect : OFeature → Rect → Bool) (openEx : Except String (Option Dataset))
    (fp : String) (options : POptions)
    (hopen : openEx = Except.ok none ∨ ∃ e : String, openEx = Except.error e) :
    ∃ m : String,
      parse applyT inRect openEx fp options = Except.error (Exn.s57ParseError m) ∧
      ∀ args : Args, args.input = fp →
        mainEntry applyT inRect openEx args =
          (1, Json.obj [("error", Json.str m),
            ("type", Json.str "S57ParseError")]) := by
  rcases hopen with hnone | ⟨e, herr⟩
  · subst hnone
    refine ⟨"Error opening file " ++ fp ++ ": " ++ ("Could not open file: " ++ fp),
      ?_, ?_⟩
    · simp [parse, s57open]
    · intro args hargs
      simp [mainEntry, parse, s57open, hargs]
  · subst herr
    refine ⟨"Error opening file " ++ fp ++ ": " ++ e, ?_, ?_⟩
    · simp [parse, s57open]
    · intro args hargs
      simp [mainEntry, parse, s57open, hargs]

theorem c8_open_failure_witness :
    ∃ m : String,
      parse idTransform trueRect (Except.ok none) "missing.000" ⟨none, none⟩ =
        Except.error (Exn.s57ParseError m) ∧
      ∀ args : Args, args.input = "missing.000" →
        mainEntry idTransform trueRect (Except.ok none) args =
          (1, Json.obj [("error", Json.str m),
            ("type", Json.str "S57ParseError")]) :=
  c8_open_failure idTransform trueRect (Except.ok none) "missing.000"
    ⟨none, none⟩ (Or.inl rfl)

/-- Claim C3: a geometry with an unknown type tag, or one whose inspection
raises, converts to `None`; the enclosing feature still appears in the
FeatureCollection with a null geometry, and the parse succeeds. -/
theorem c3_bad_geometry_recoverable (applyT : GeomVal → GeomVal)
    (inRect : OFeature → Rect → Bool) (g : GeomVal) (f : OFeature)
    (nm fp : String) (pre post : List OFeature) (cur : Nat)
    (hbad : (∃ (g' : GeomVal) (c : Int),
        transform_to_wgs84 applyT g = Except.ok g' ∧
        getGeometryType g' = Except.ok (GeomType.unknown c)) ∨
      ∃ e : String, convert_body applyT g = Except.error e)
    (hg : f.geometry = some g) :
    convert_geometry_to_geojson applyT g = none ∧
    (featureToDict applyT f).geometry = none ∧
    ∃ ls' : List Layer,
      parse applyT inRect (Except.ok (some [⟨nm, pre ++ f :: post, cur, none⟩]))
          fp ⟨none, none⟩ =
        Except.ok (Json.obj [("type", Json.str "FeatureCollection"),
          ("features", Json.arr (((pre ++ f :: post).map
            (featureToDict applyT)).map (assembleFeature nm)))], ls') ∧
      assembleFeature nm (featureToDict applyT f) ∈
        ((pre ++ f :: post).map (featureToDict applyT)).map (assembleFeature nm) ∧
      geometryOf (assembleFeature nm (featureToDict applyT f)) =
        some Json.null := by
  have hconv : convert_geometry_to_geojson applyT g = none := by
    rcases hbad with ⟨g', c, ht, hty⟩ | ⟨e, he⟩
    · have hb : convert_body applyT g = Except.ok none := by
        rw [convert_body, ht, except_bind_ok, hty, except_bind_ok]
      simp [convert_geometry_to_geojson, hb]
    · simp [convert_geometry_to_geojson, he]
  have hfd : (featureToDict applyT f).geometry = none := by
    rw [featureToDict_geometry_some applyT f g hg, hconv]
  refine ⟨hconv, hfd, ?_⟩
  refine ⟨[⟨nm, pre ++ f :: post, (pre ++ f :: post).length, none⟩], ?_, ?_, ?_⟩
  · simp [parse, s57open, extract_layers, processLayers, layerIncluded,
      applyBbox, extract_features, extractLoop_nofilter]
  · exact List.mem_map_of_mem _
      (List.mem_map_of_mem _
        (List.mem_append_right pre (List.mem_cons_self f post)))
  · rw [geometryOf_assembleFeature, hfd]
    rfl

theorem c3_bad_geometry_recoverable_witness :
    convert_geometry_to_geojson idTransform
      (GeomVal.geom (GeomType.unknown 99) [] [] none) = none ∧
    (featureToDict idTransform
      ⟨7, [], some (GeomVal.geom (GeomType.unknown 99) [] [] none)⟩).geometry = none ∧
    ∃ ls' : List Layer,
      parse idTransform trueRect
          (Except.ok (some [⟨"SOUNDG",
            [] ++ ⟨7, [], some (GeomVal.geom (GeomType.unknown 99) [] [] none)⟩ :: [],
            0, none⟩])) "chart.000" ⟨none, none⟩ =
        Except.ok (Json.obj [("type", Json.str "FeatureCollection"),
          ("features", Json.arr ((([] ++
            (⟨7, [], some (GeomVal.geom (GeomType.unknown 99) [] [] none)⟩ : OFeature)
              :: []).map (featureToDict idTransform)).map
            (assembleFeature "SOUNDG")))], ls') ∧
      assembleFeature "SOUNDG" (featureToDict idTransform
        ⟨7, [], some (GeomVal.geom (GeomType.unknown 99) [] [] none)⟩) ∈
        (([] ++ (⟨7, [], some (GeomVal.geom (GeomType.unknown 99) [] [] none)⟩ : OFeature)
          :: []).map (featureToDict idTransform)).map (assembleFeature "SOUNDG") ∧
      geometryOf (assembleFeature "SOUNDG" (featureToDict idTransform
        ⟨7, [], some (GeomVal.geom (GeomType.unknown 99) [] [] none)⟩)) =
        some Json.null :=
  c3_bad_geometry_recoverable idTransform trueRect
    (GeomVal.geom (GeomType.unknown 99) [] [] none)
    ⟨7, [], some (GeomVal.geom (GeomType.unknown 99) [] [] none)⟩
    "SOUNDG" "chart.000" [] [] 0
    (Or.inl ⟨GeomVal.geom (GeomType.unknown 99) [] [] none, 99, rfl, rfl⟩) rfl
